import Mathlib

/-!
Verification development for the Nation3-style citizenship app:
the `Passport` credential contract (`src/contracts/src/passport/Passport.sol`)
and the veNATION lock/decay arithmetic of the lock page
(`src/ui/pages/lock.tsx`).

Machine integers (`uint256`) are modelled as `Nat` with explicit `% 2^256`
wherever the source uses `unchecked` arithmetic; Solidity `revert`s are
modelled as `Except.error` results (an error result means the whole call
reverts, leaving the pre-state unchanged).  Addresses are modelled as `Nat`,
with `0` standing for the zero address.
-/

namespace Passport

/-- Addresses, `0` is the zero address. -/
abbrev Addr := Nat

/-- The `uint256` modulus `2^256`. -/
def U : Nat := 2 ^ 256

/-- Revert reasons.  `Unauthorized` is the failure of the `onlyController`
gate (from `Controlled.sol`, modelled from the spec §4.1/§7);
`CallerIsNotAuthorized`, `TargetIsZeroAddress`, `NotMinted`, `AlreadyMinted`
and `UnsafeRecipient` are the ERC721-layer errors named by the source and
the spec's error taxonomy; `Overflow` models a Solidity 0.8 checked-arithmetic
panic. -/
inductive Err where
  | Unauthorized
  | InvalidFrom
  | TargetIsZeroAddress
  | CallerIsNotAuthorized
  | NotMinted
  | AlreadyMinted
  | UnsafeRecipient
  | Overflow
deriving DecidableEq, Repr

/-- Emitted events (only `Transfer` is relevant to the claims). -/
inductive Event where
  | Transfer (fromAddr toAddr : Addr) (id : Nat)
deriving DecidableEq, Repr

/-- The contract storage of `Passport` (including the inherited ERC721 and
`Controlled` storage).  `acceptsToken` is an environment assumption for the
safe variants: whether a recipient address accepts an ERC721 token
(true for plain accounts and for well-behaved receiver contracts).
`log` accumulates emitted events. -/
structure State where
  _supply : Nat
  _idTracker : Nat
  renderer : Addr
  timestamps : Nat → Nat
  _ownerOf : Nat → Addr
  _balanceOf : Addr → Nat
  getApproved : Nat → Addr
  isApprovedForAll : Addr → Addr → Bool
  controller : Addr
  owner : Addr
  acceptsToken : Addr → Bool
  log : List Event

/-- The `totalSupply()` view. -/
def totalSupply (s : State) : Nat := s._supply

/-- The `getNextId()` view. -/
def getNextId (s : State) : Nat := s._idTracker

/-- Modelled from the spec: solmate/ERC721 `ownerOf`, which is not under
`src/`; per spec §4.2/§7 it fails with `NotMinted` when the id has no
current owner. -/
def ownerOf (s : State) (id : Nat) : Except Err Addr :=
  if s._ownerOf id = 0 then .error .NotMinted else .ok (s._ownerOf id)

/-- Modelled from the spec: the parent ERC721 `_mint` (not under `src/`).
Per spec §4.2 it rejects the zero address and an already-minted id, then
assigns ownership, increments the recipient's balance (unchecked in the
parent) and emits a creation `Transfer` event. -/
def _mint (s : State) (toAddr : Addr) (id : Nat) : Except Err State :=
  if toAddr = 0 then .error .TargetIsZeroAddress
  else if s._ownerOf id ≠ 0 then .error .AlreadyMinted
  else .ok { s with
    _balanceOf := Function.update s._balanceOf toAddr ((s._balanceOf toAddr + 1) % U),
    _ownerOf := Function.update s._ownerOf id toAddr,
    log := s.log ++ [Event.Transfer 0 toAddr id] }

/-- Modelled from the spec: the parent ERC721 `_safeMint` (not under
`src/`): `_mint` plus the receiver-acceptance check, failing with
`UnsafeRecipient` (spec §4.2). -/
def _safeMint (s : State) (toAddr : Addr) (id : Nat) : Except Err State :=
  match _mint s toAddr id with
  | .error e => .error e
  | .ok s1 => if s.acceptsToken toAddr then .ok s1 else .error .UnsafeRecipient

/-- Modelled from the spec: the parent ERC721 `_burn` (not under `src/`).
Fails with `NotMinted` when the id has no owner; otherwise decrements the
owner's balance (unchecked), clears ownership and the per-token approval,
and emits a `Transfer` to the zero address. -/
def _burn (s : State) (id : Nat) : Except Err State :=
  if s._ownerOf id = 0 then .error .NotMinted
  else .ok { s with
    _balanceOf := Function.update s._balanceOf (s._ownerOf id)
      ((s._balanceOf (s._ownerOf id) + (U - 1)) % U),
    _ownerOf := Function.update s._ownerOf id 0,
    getApproved := Function.update s.getApproved id 0,
    log := s.log ++ [Event.Transfer (s._ownerOf id) 0 id] }

/-- The `transferFrom(from, to, id)` function of `Passport.sol` (lines
78-102), called by
`caller` (= `msg.sender`).  The `onlyController` modifier (from
`Controlled.sol`, modelled from spec §4.1: fails with `Unauthorized` when
the caller is not the controller) runs first; then the body's checks and
effects, in source order.  The two balance updates are sequential, exactly
as in the source's `unchecked` block. -/
def transferFrom (s : State) (caller fromAddr toAddr : Addr) (id : Nat) :
    Except Err State :=
  if caller ≠ s.controller then .error .Unauthorized
  else if fromAddr ≠ s._ownerOf id then .error .InvalidFrom
  else if toAddr = 0 then .error .TargetIsZeroAddress
  else if caller ≠ fromAddr ∧ s.isApprovedForAll fromAddr caller = false ∧
      caller ≠ s.getApproved id ∧ caller ≠ s.controller then
    .error .CallerIsNotAuthorized
  else
    let b1 := Function.update s._balanceOf fromAddr
      ((s._balanceOf fromAddr + (U - 1)) % U)
    let b2 := Function.update b1 toAddr ((b1 toAddr + 1) % U)
    .ok { s with
      _balanceOf := b2,
      _ownerOf := Function.update s._ownerOf id toAddr,
      getApproved := Function.update s.getApproved id 0,
      log := s.log ++ [Event.Transfer fromAddr toAddr id] }

/-- The `mint(to)` function of `Passport.sol` (lines 132-141):
`onlyController`, then
`_mint(to, _idTracker)`, returns the allocated id, and increments
`_idTracker` and `_supply` in an `unchecked` block (hence `% 2^256`).
Note that the body never writes the `timestamps` mapping. -/
def mint (s : State) (caller toAddr : Addr) : Except Err (State × Nat) :=
  if caller ≠ s.controller then .error .Unauthorized
  else match _mint s toAddr s._idTracker with
  | .error e => .error e
  | .ok s1 => .ok ({ s1 with
      _idTracker := (s1._idTracker + 1) % U,
      _supply := (s1._supply + 1) % U }, s._idTracker)

/-- The `safeMint(to)` function of `Passport.sol` (lines 146-152): like
`mint` but via
`_safeMint`, and its two increments are *checked* (no `unchecked` block),
so they revert on overflow. -/
def safeMint (s : State) (caller toAddr : Addr) : Except Err (State × Nat) :=
  if caller ≠ s.controller then .error .Unauthorized
  else match _safeMint s toAddr s._idTracker with
  | .error e => .error e
  | .ok s1 =>
    if s1._idTracker + 1 ≥ U ∨ s1._supply + 1 ≥ U then .error .Overflow
    else .ok ({ s1 with
      _idTracker := s1._idTracker + 1,
      _supply := s1._supply + 1 }, s._idTracker)

/-- The `burn(id)` function of `Passport.sol` (lines 156-163):
`onlyController`, then
`_burn(id)` and an `unchecked` decrement of `_supply`. -/
def burn (s : State) (caller : Addr) (id : Nat) : Except Err State :=
  if caller ≠ s.controller then .error .Unauthorized
  else match _burn s id with
  | .error e => .error e
  | .ok s1 => .ok { s1 with _supply := (s1._supply + (U - 1)) % U }

/-- A freshly deployed contract: all storage zeroed, deployer `1` as owner
and controller, every recipient accepting tokens. -/
def S0 : State where
  _supply := 0
  _idTracker := 0
  renderer := 0
  timestamps := fun _ => 0
  _ownerOf := fun _ => 0
  _balanceOf := fun _ => 0
  getApproved := fun _ => 0
  isApprovedForAll := fun _ _ => false
  controller := 1
  owner := 1
  acceptsToken := fun _ => true
  log := []

end Passport

namespace LockPage

/-- The constant `fourYears` from `calculateVestingStart` in
`src/ui/pages/lock.tsx`
(milliseconds). -/
def fourYears : ℚ := 31556926000 * 4

/-- The function `calculateVestingStart({nationAmount, veNationAmount,
lockTime})` from
`src/ui/pages/lock.tsx` (lines 69-76).  JavaScript numbers are modelled as
exact rationals; in ℚ, division by zero yields 0 (the zero-denominator case
is excluded by hypotheses wherever a theorem depends on it). -/
def calculateVestingStart (nationAmount veNationAmount lockTime : ℚ) : ℚ :=
  lockTime - veNationAmount / nationAmount * fourYears

/-- The numeric value `finalVeNationAmount` computed inside
`calculateVeNation` (lines 59-65) before display formatting:
`nationAmount * (time - vestingStart) / (max - vestingStart)`. -/
def finalVeNationAmount (nationAmount veNationAmount time lockTime max : ℚ) : ℚ :=
  let vestingStart := calculateVestingStart nationAmount veNationAmount lockTime
  let percentage := (time - vestingStart) / (max - vestingStart)
  nationAmount * percentage

/-- Numeric content of JavaScript's `x.toFixed(digits)`: `x` rounded to
`digits` decimal places (the source returns the decimal string; we model
the value it denotes). -/
def toFixedQ (q : ℚ) (digits : ℕ) : ℚ :=
  (round (q * 10 ^ digits) : ℚ) / 10 ^ digits

/-- The function `calculateVeNation({nationAmount, veNationAmount, time,
lockTime, max})`
from `src/ui/pages/lock.tsx` (lines 49-67).  The guard `!nationAmount > 0`
returns 0 exactly when `nationAmount` is 0 (in JS, `!x` is true only for a
falsy amount, and the boolean is then coerced for the comparison), before
any division is performed.  The result is formatted with
`toFixed(finalVeNationAmount > 1 ? 2 : 8)`. -/
def calculateVeNation (nationAmount veNationAmount time lockTime max : ℚ) : ℚ :=
  if nationAmount = 0 then 0
  else
    let v := finalVeNationAmount nationAmount veNationAmount time lockTime max
    toFixedQ v (if 1 < v then 2 else 8)

end LockPage

open Passport LockPage

/-- State after the controller (account 1) mints the first passport (id 0)
to account 2. -/
def S1 : State :=
  match mint S0 1 2 with
  | .ok p => p.1
  | .error _ => S0

/-- State after the controller burns token 0 from `S1`. -/
def S2 : State :=
  match burn S1 1 0 with
  | .ok s => s
  | .error _ => S1

/-- State after the controller transfers token 0 from account 2 to
account 3 in `S1`. -/
def T1 : State :=
  match transferFrom S1 1 2 3 0 with
  | .ok s => s
  | .error _ => S1

/-- Result of the controller's first mint on a fresh contract. -/
def M0 : State × Nat :=
  match mint S0 1 2 with
  | .ok p => p
  | .error _ => (S0, 0)

/-- One controller mint of a passport to account 2 (the state is kept
unchanged if the mint reverts). -/
def mintStep (s : State) : State :=
  match mint s 1 2 with
  | .ok p => p.1
  | .error _ => s

/-- The state after `n` controller mints to account 2 from a fresh
contract. -/
def mintN : Nat → State
  | 0 => S0
  | n + 1 => mintStep (mintN n)

/-- All of the first `n` mints in the `mintN` trace succeeded. -/
def mintAllOk : Nat → Prop
  | 0 => True
  | n + 1 => mintAllOk n ∧ (mint (mintN n) 1 2).isOk

/-- Unfolding of `mint` into its decision tree. -/
theorem mint_eq (s : State) (caller toAddr : Addr) :
    mint s caller toAddr =
      if caller ≠ s.controller then .error .Unauthorized
      else if toAddr = 0 then .error .TargetIsZeroAddress
      else if s._ownerOf s._idTracker ≠ 0 then .error .AlreadyMinted
      else .ok ({ s with
        _balanceOf := Function.update s._balanceOf toAddr
          ((s._balanceOf toAddr + 1) % U),
        _ownerOf := Function.update s._ownerOf s._idTracker toAddr,
        log := s.log ++ [Event.Transfer 0 toAddr s._idTracker],
        _idTracker := (s._idTracker + 1) % U,
        _supply := (s._supply + 1) % U }, s._idTracker) := by
  unfold mint _mint
  by_cases hc : caller ≠ s.controller <;> by_cases h0 : toAddr = 0 <;>
    by_cases ho : s._ownerOf s._idTracker ≠ 0 <;> simp [hc, h0, ho]

/-- Unfolding of `burn` into its decision tree. -/
theorem burn_eq (s : State) (caller : Addr) (id : Nat) :
    burn s caller id =
      if caller ≠ s.controller then .error .Unauthorized
      else if s._ownerOf id = 0 then .error .NotMinted
      else .ok { s with
        _balanceOf := Function.update s._balanceOf (s._ownerOf id)
          ((s._balanceOf (s._ownerOf id) + (U - 1)) % U),
        _ownerOf := Function.update s._ownerOf id 0,
        getApproved := Function.update s.getApproved id 0,
        log := s.log ++ [Event.Transfer (s._ownerOf id) 0 id],
        _supply := (s._supply + (U - 1)) % U } := by
  unfold burn _burn
  by_cases hc : caller ≠ s.controller <;> by_cases ho : s._ownerOf id = 0 <;>
    simp [hc, ho]

/-- Unfolding of `transferFrom` into its decision tree.  Because the
`onlyController` gate has already forced `caller = controller`, the inner
authorization check can never fire, so the success branch follows the
third check directly. -/
theorem transferFrom_eq (s : State) (caller fromAddr toAddr : Addr) (id : Nat) :
    transferFrom s caller fromAddr toAddr id =
      if caller ≠ s.controller then .error .Unauthorized
      else if fromAddr ≠ s._ownerOf id then .error .InvalidFrom
      else if toAddr = 0 then .error .TargetIsZeroAddress
      else .ok { s with
        _balanceOf := Function.update
          (Function.update s._balanceOf fromAddr
            ((s._balanceOf fromAddr + (U - 1)) % U)) toAddr
          ((Function.update s._balanceOf fromAddr
            ((s._balanceOf fromAddr + (U - 1)) % U) toAddr + 1) % U),
        _ownerOf := Function.update s._ownerOf id toAddr,
        getApproved := Function.update s.getApproved id 0,
        log := s.log ++ [Event.Transfer fromAddr toAddr id] } := by
  unfold transferFrom
  by_cases hc : caller ≠ s.controller <;> by_cases hf : fromAddr ≠ s._ownerOf id <;>
    by_cases h0 : toAddr = 0 <;> simp [hc, hf, h0]

/-- Trace invariant: after `n ≤ 2^256` mints, the controller is unchanged,
`_idTracker = n % 2^256`, and exactly the ids below `n` are owned (by
account 2). -/
theorem mintN_spec : ∀ n, n ≤ U →
    (mintN n).controller = 1 ∧
    (mintN n)._idTracker = n % U ∧
    ∀ id, (mintN n)._ownerOf id = if id < n then 2 else 0 := by
  intro n
  induction n with
  | zero =>
    intro _
    refine ⟨rfl, rfl, fun id => ?_⟩
    simp [mintN, S0]
  | succ n ih =>
    intro hn
    have hlt : n < U := lt_of_lt_of_le (Nat.lt_succ_self n) hn
    obtain ⟨hc, hit, how⟩ := ih (le_of_lt hlt)
    have hidt : (mintN n)._idTracker = n := by rw [hit, Nat.mod_eq_of_lt hlt]
    have hown : (mintN n)._ownerOf ((mintN n)._idTracker) = 0 := by
      rw [hidt, how]
      simp
    have hmint : mint (mintN n) 1 2 = Except.ok ({ mintN n with
        _balanceOf := Function.update (mintN n)._balanceOf 2
          (((mintN n)._balanceOf 2 + 1) % U),
        _ownerOf := Function.update (mintN n)._ownerOf n 2,
        log := (mintN n).log ++ [Event.Transfer 0 2 n],
        _idTracker := (n + 1) % U,
        _supply := ((mintN n)._supply + 1) % U }, n) := by
      rw [mint_eq, if_neg (by simp [hc]), if_neg (by norm_num), if_neg (by simp [hown]), hidt]
    have hstep : mintN (n + 1) = { mintN n with
        _balanceOf := Function.update (mintN n)._balanceOf 2
          (((mintN n)._balanceOf 2 + 1) % U),
        _ownerOf := Function.update (mintN n)._ownerOf n 2,
        log := (mintN n).log ++ [Event.Transfer 0 2 n],
        _idTracker := (n + 1) % U,
        _supply := ((mintN n)._supply + 1) % U } := by
      show mintStep (mintN n) = _
      rw [mintStep, hmint]
    refine ⟨by rw [hstep]; exact hc, by rw [hstep], fun id => ?_⟩
    rw [hstep]
    show Function.update (mintN n)._ownerOf n 2 id = _
    rcases eq_or_ne id n with rfl | hne
    · simp [Function.update_same, Nat.lt_succ_self]
    · rw [Function.update_noteq hne, how]
      rcases Nat.lt_trichotomy id n with hl | rfl | hg
      · rw [if_pos hl, if_pos (Nat.lt_succ_of_lt hl)]
      · exact absurd rfl hne
      · rw [if_neg (Nat.lt_asymm hg), if_neg (by omega)]

/-- Every mint in a trace of up to `2^256` mints from a fresh contract
succeeds. -/
theorem mintAllOk_of_le : ∀ n, n ≤ U → mintAllOk n := by
  intro n
  induction n with
  | zero => intro _; trivial
  | succ n ih =>
    intro hn
    have hlt : n < U := lt_of_lt_of_le (Nat.lt_succ_self n) hn
    obtain ⟨hc, hit, how⟩ := mintN_spec n (le_of_lt hlt)
    have hidt : (mintN n)._idTracker = n := by rw [hit, Nat.mod_eq_of_lt hlt]
    refine ⟨ih (le_of_lt hlt), ?_⟩
    rw [mint_eq, if_neg (by simp [hc]), if_neg (by norm_num),
      if_neg (by rw [hidt, how]; simp)]
    rfl

/-- C1: on a fresh contract the controller's `mint` (resp. `safeMint`)
succeeds and allocates id 0, yet the `timestamps` (mintedAt) entry for the
new token is still the storage default 0 afterwards: the `mint`/`safeMint`
bodies in `Passport.sol` never write the `timestamps` mapping, so the mint
timestamp is not recorded for any call executed at a nonzero block time. -/
theorem mint_never_records_timestamp :
    (mint S0 1 2).map (fun p => (p.2, p.1.timestamps 0)) =
      Except.ok (0, 0) ∧
    (safeMint S0 1 2).map (fun p => (p.2, p.1.timestamps 0)) =
      Except.ok (0, 0) := ⟨rfl, rfl⟩

/-- C2: a `transferFrom(from, to, id)` call succeeds only if the caller is
the controller, the recorded owner (`from` itself), an approved operator
for `from`, or the per-token approved address; a caller that is none of
these fails with `Unauthorized` (the `onlyController` gate).  An error
result models a full revert. -/
theorem transferFrom_only_authorized (s : State)
    (caller fromAddr toAddr : Addr) (id : Nat) :
    (∀ s', transferFrom s caller fromAddr toAddr id = Except.ok s' →
      caller = s.controller ∨ caller = fromAddr ∨ caller = s._ownerOf id ∨
      s.isApprovedForAll fromAddr caller = true ∨ caller = s.getApproved id) ∧
    (caller ≠ s.controller ∧ caller ≠ fromAddr ∧ caller ≠ s._ownerOf id ∧
      s.isApprovedForAll fromAddr caller = false ∧ caller ≠ s.getApproved id →
      transferFrom s caller fromAddr toAddr id =
        Except.error Err.Unauthorized) := by
  constructor
  · intro s' h
    by_cases hc : caller = s.controller
    · exact Or.inl hc
    · rw [transferFrom_eq, if_pos hc] at h
      exact absurd h (by simp)
  · rintro ⟨hc, -, -, -, -⟩
    rw [transferFrom_eq, if_pos hc]

/-- C2 witness: in the one-token state `S1`, the uninvolved account 9
(not controller, owner, operator or approved) fails with `Unauthorized`. -/
theorem transferFrom_only_authorized_witness :
    transferFrom S1 9 2 3 0 = Except.error Err.Unauthorized :=
  (transferFrom_only_authorized S1 9 2 3 0).2
    ⟨by decide, by decide, by decide, by decide, by decide⟩

/-- C3 counterexample: in the (astronomically long but finite) trace of
`2^256` successful controller mints from a fresh contract, `nextId`
reaches `2^256 - 1` and the next successful mint wraps it to 0 (the
increment is `unchecked`), so `nextId` decreases and id 0 would then be
allocated a second time: the claim's "never decreases" is false for this
sequence of successful mints. -/
theorem nextId_wraps_after_max_mints :
    mintAllOk U ∧
    (mintN (U - 1))._idTracker = U - 1 ∧
    (mintN U)._idTracker = 0 ∧
    (mintN U)._idTracker < (mintN (U - 1))._idTracker := by
  have h1 := mintAllOk_of_le U le_rfl
  obtain ⟨-, hit1, -⟩ := mintN_spec (U - 1) (Nat.sub_le _ _)
  obtain ⟨-, hit2, -⟩ := mintN_spec U le_rfl
  have hu : 0 < U := by norm_num [U]
  have e1 : (mintN (U - 1))._idTracker = U - 1 := by
    rw [hit1, Nat.mod_eq_of_lt (Nat.sub_lt hu one_pos)]
  have e2 : (mintN U)._idTracker = 0 := by rw [hit2, Nat.mod_self]
  refine ⟨h1, e1, e2, ?_⟩
  rw [e1, e2]
  norm_num [U]

/-- C3 (amended): each successful `mint` returns the pre-state `nextId`
and sets it to `(nextId + 1) % 2^256` — an increment by exactly 1 whenever
no wraparound occurs (`nextId + 1 < 2^256`, i.e. fewer than `2^256` mints
ever happened) — and successful `burn` and `transferFrom` never change
`nextId`; hence `nextId` never decreases below the wraparound bound. -/
theorem nextId_monotone_mod :
    (∀ s caller toAddr p, mint s caller toAddr = Except.ok p →
      p.2 = s._idTracker ∧ p.1._idTracker = (s._idTracker + 1) % U ∧
      (s._idTracker + 1 < U → p.1._idTracker = s._idTracker + 1)) ∧
    (∀ s caller id s', burn s caller id = Except.ok s' →
      s'._idTracker = s._idTracker) ∧
    (∀ s caller fromAddr toAddr id s',
      transferFrom s caller fromAddr toAddr id = Except.ok s' →
      s'._idTracker = s._idTracker) := by
  refine ⟨?_, ?_, ?_⟩
  · intro s caller toAddr p h
    rw [mint_eq] at h
    split at h
    · exact absurd h (by simp)
    · split at h
      · exact absurd h (by simp)
      · split at h
        · exact absurd h (by simp)
        · obtain rfl : _ = p := Except.ok.inj h
          exact ⟨rfl, rfl, fun hb => Nat.mod_eq_of_lt hb⟩
  · intro s caller id s' h
    rw [burn_eq] at h
    split at h
    · exact absurd h (by simp)
    · split at h
      · exact absurd h (by simp)
      · obtain rfl : _ = s' := Except.ok.inj h
        rfl
  · intro s caller fromAddr toAddr id s' h
    rw [transferFrom_eq] at h
    split at h
    · exact absurd h (by simp)
    · split at h
      · exact absurd h (by simp)
      · split at h
        · exact absurd h (by simp)
        · obtain rfl : _ = s' := Except.ok.inj h
          rfl

/-- C3 amended witness: the first mint on a fresh contract returns id 0
and sets `nextId` to 1. -/
theorem nextId_monotone_mod_witness :
    M0.2 = S0._idTracker ∧ M0.1._idTracker = S0._idTracker + 1 := by
  obtain ⟨h1, -, h3⟩ := nextId_monotone_mod.1 S0 1 2 M0 rfl
  exact ⟨h1, h3 (by norm_num [U, S0])⟩

/-- C4 counterexample: after minting token 0 to account 2 and burning it,
the controller's `transferFrom(2, 3, 0)` fails with `InvalidFrom`, not
with `NotMinted` as the claim requires of every post-burn call. -/
theorem burned_transfer_not_notMinted :
    transferFrom S2 1 2 3 0 = Except.error Err.InvalidFrom ∧
    Err.InvalidFrom ≠ Err.NotMinted := ⟨rfl, by decide⟩

/-- C4 (amended): after a successful `burn(id)`, `ownerOf(id)` fails with
`NotMinted` and so does a further controller `burn(id)`; a further
controller `transferFrom(from, to, id)` fails with `InvalidFrom` for every
nonzero `from` (non-controller callers fail earlier with `Unauthorized` at
the gate). -/
theorem burn_then_operations (s : State) (caller : Addr) (id : Nat)
    (s' : State) (h : burn s caller id = Except.ok s') :
    ownerOf s' id = Except.error Err.NotMinted ∧
    burn s' caller id = Except.error Err.NotMinted ∧
    (∀ fromAddr toAddr, fromAddr ≠ 0 →
      transferFrom s' caller fromAddr toAddr id =
        Except.error Err.InvalidFrom) := by
  rw [burn_eq] at h
  split at h
  · exact absurd h (by simp)
  · split at h
    · exact absurd h (by simp)
    · rename_i hc ho
      obtain rfl : _ = s' := Except.ok.inj h
      have hcc : caller = s.controller := not_not.mp hc
      have hown : Function.update s._ownerOf id 0 id = 0 := Function.update_same _ _ _
      refine ⟨?_, ?_, ?_⟩
      · rw [ownerOf]
        simp [hown]
      · rw [burn_eq]
        simp [hcc, hown]
      · intro fromAddr toAddr hf
        rw [transferFrom_eq]
        simp only [hown]
        rw [if_neg (not_not_intro hcc), if_pos hf]

/-- C4 witness: the concrete mint-then-burn trace `S2`. -/
theorem burn_then_operations_witness :
    ownerOf S2 0 = Except.error Err.NotMinted ∧
    burn S2 1 0 = Except.error Err.NotMinted ∧
    transferFrom S2 1 2 3 0 = Except.error Err.InvalidFrom := by
  obtain ⟨h1, h2, h3⟩ := burn_then_operations S1 1 0 S2 rfl
  exact ⟨h1, h2, h3 2 3 (by decide)⟩

/-- C5 counterexample: a self-transfer (`from = to`) succeeds (here the
controller transfers token 0 from its owner 2 back to 2), and the owner's
balance stays 1 — it is not decremented to `(1 + (2^256 - 1)) % 2^256 = 0`
as the claim's simultaneous decrement/increment reading requires. -/
theorem transferFrom_self_balance_counterexample :
    (transferFrom S1 1 2 2 0).map (fun s => s._balanceOf 2) = Except.ok 1 ∧
    S1._balanceOf 2 = 1 ∧
    (1 : ℕ) ≠ (1 + (U - 1)) % U := by
  refine ⟨rfl, rfl, ?_⟩
  norm_num [U]

/-- C5 (amended): a successful `transferFrom` reassigns `owner[id] = to`,
clears the per-token approval, and emits `Transfer(from, to, id)`; when
`from ≠ to` it decrements `from`'s balance and increments `to`'s balance
(unchecked, i.e. mod `2^256`), while a self-transfer leaves the balance
unchanged (mod `2^256`). -/
theorem transferFrom_success_effects (s : State)
    (caller fromAddr toAddr : Addr) (id : Nat) (s' : State)
    (h : transferFrom s caller fromAddr toAddr id = Except.ok s') :
    s'._ownerOf id = toAddr ∧
    s'.getApproved id = 0 ∧
    s'.log = s.log ++ [Event.Transfer fromAddr toAddr id] ∧
    (fromAddr ≠ toAddr →
      s'._balanceOf fromAddr = (s._balanceOf fromAddr + (U - 1)) % U ∧
      s'._balanceOf toAddr = (s._balanceOf toAddr + 1) % U) ∧
    (fromAddr = toAddr → s'._balanceOf toAddr = s._balanceOf toAddr % U) := by
  rw [transferFrom_eq] at h
  split at h
  · exact absurd h (by simp)
  · split at h
    · exact absurd h (by simp)
    · split at h
      · exact absurd h (by simp)
      · obtain rfl : _ = s' := Except.ok.inj h
        refine ⟨by simp, by simp, rfl, ?_, ?_⟩
        · intro hne
          constructor
          · simp [Function.update_apply, hne, Ne.symm hne]
          · simp [Function.update_apply, Ne.symm hne]
        · intro heq
          subst heq
          simp only [Function.update_same]
          rw [Nat.mod_add_mod, Nat.add_assoc,
            Nat.sub_add_cancel (by norm_num [U] : 1 ≤ U), Nat.add_mod_right]

/-- C5 witness: the distinct transfer of token 0 from 2 to 3 in `S1`
reassigns ownership, clears the approval and logs the transfer event. -/
theorem transferFrom_success_effects_witness :
    T1._ownerOf 0 = 3 ∧ T1.getApproved 0 = 0 ∧
    T1.log = S1.log ++ [Event.Transfer 2 3 0] := by
  obtain ⟨h1, h2, h3, -, -⟩ := transferFrom_success_effects S1 1 2 3 0 T1 rfl
  exact ⟨h1, h2, h3⟩

/-- C6: when the caller is the controller (so the outer gate passes) and
`from` is not the recorded owner of `id`, `transferFrom` fails with
`InvalidFrom`; the error is a revert, so the state is unchanged. -/
theorem transferFrom_wrong_from (s : State)
    (caller fromAddr toAddr : Addr) (id : Nat)
    (hc : caller = s.controller) (hf : fromAddr ≠ s._ownerOf id) :
    transferFrom s caller fromAddr toAddr id =
      Except.error Err.InvalidFrom := by
  rw [transferFrom_eq, if_neg (not_not_intro hc), if_pos hf]

/-- C6 witness: the controller transfers token 0 naming the wrong owner 5. -/
theorem transferFrom_wrong_from_witness :
    transferFrom S1 1 5 3 0 = Except.error Err.InvalidFrom :=
  transferFrom_wrong_from S1 1 5 3 0 (by decide) (by decide)

/-- C7: the 4-year lock scenario, with `T0 = 0` (milliseconds).  The page
evaluates a lock of amount 1000 with expiration `M = T0 + 4 years
= 126227704000` at wall-clock time `t` by passing `time := M`,
`lockTime := M`, `max := t + 4 years` and `veNationAmount :=` the holder's
current balance `1000 * (M - t) / fourYears`.  At `t = T0` (balance 1000)
the result is 1000, and at `t = T0 + 2 years = 63113852000` (balance 500)
it is 500. -/
theorem veNation_full_lock_scenario :
    calculateVeNation 1000 1000 126227704000 126227704000 126227704000
      = 1000 ∧
    calculateVeNation 1000 500 126227704000 126227704000 189341556000
      = 500 := by
  constructor <;>
    norm_num [calculateVeNation, finalVeNationAmount, calculateVestingStart,
      fourYears, toFixedQ, round_eq]

/-- C8 counterexample: a valid 2-year lock — amount 1000 > 0, created at
`T0 = 0` with maturity `2 years = 63113852000` and `max = T0 + 4 years
= 126227704000` — has `vestingStart = 63113852000`, and the decayed
balance evaluated at its maturity horizon `vestingStart + 4 years
= 189341556000` is 2000, not the full amount 1000 that the claim
requires. -/
theorem decayedBalance_horizon_counterexample :
    calculateVestingStart 1000 0 63113852000 = 63113852000 ∧
    calculateVeNation 1000 0 189341556000 63113852000 126227704000
      = 2000 ∧
    (2000 : ℚ) ≠ 1000 := by
  refine ⟨?_, ?_, by norm_num⟩ <;>
    norm_num [calculateVeNation, finalVeNationAmount, calculateVestingStart,
      fourYears, toFixedQ, round_eq]

/-- C8 (amended): for every lock with a nonzero amount and a
non-degenerate horizon (`max ≠ vestingStart`), the displayed balance at
`time = vestingStart` is 0, and the decayed balance at the `max` horizon
argument equals the full amount; it equals the amount at
`vestingStart + 4 years` only when `max = vestingStart + 4 years`. -/
theorem decayedBalance_vestingStart_and_max
    (nationAmount veNationAmount lockTime max : ℚ)
    (h : nationAmount ≠ 0)
    (h2 : max ≠ calculateVestingStart nationAmount veNationAmount lockTime) :
    calculateVeNation nationAmount veNationAmount
      (calculateVestingStart nationAmount veNationAmount lockTime)
      lockTime max = 0 ∧
    finalVeNationAmount nationAmount veNationAmount max lockTime max
      = nationAmount := by
  constructor
  · rw [calculateVeNation, if_neg h]
    norm_num [finalVeNationAmount, toFixedQ]
  · rw [finalVeNationAmount]
    show nationAmount * ((max - _) / (max - _)) = nationAmount
    rw [div_self (sub_ne_zero_of_ne h2), mul_one]

/-- C8 amended witness: the 2-year lock of the counterexample: value 0 at
its vesting start and the full 1000 at the `max` horizon. -/
theorem decayedBalance_vestingStart_and_max_witness :
    calculateVeNation 1000 0 (calculateVestingStart 1000 0 63113852000)
      63113852000 126227704000 = 0 ∧
    finalVeNationAmount 1000 0 126227704000 63113852000 126227704000
      = 1000 :=
  decayedBalance_vestingStart_and_max 1000 0 63113852000 126227704000
    (by norm_num)
    (by norm_num [calculateVestingStart, fourYears])

/-- C9: with a zero lock amount, `calculateVeNation` returns 0 via its
leading guard, for all other arguments; the guard precedes every division
in the source, so no division with a zero `nationAmount` denominator is
reached. -/
theorem veNation_zero_amount (veNationAmount time lockTime max : ℚ) :
    calculateVeNation 0 veNationAmount time lockTime max = 0 := by
  rw [calculateVeNation, if_pos rfl]

/-- C10: a successful `transferFrom` leaves `_supply`, `_idTracker`, the
renderer, the roles, the `timestamps` mapping, operator approvals, the
balances of accounts other than `from`/`to`, and the ownership and
per-token approval of every token other than `id` unchanged.  A failing
call is a revert and changes nothing. -/
theorem transferFrom_frame (s : State) (caller fromAddr toAddr : Addr)
    (id : Nat) (s' : State)
    (h : transferFrom s caller fromAddr toAddr id = Except.ok s') :
    s'._supply = s._supply ∧
    s'._idTracker = s._idTracker ∧
    s'.renderer = s.renderer ∧
    s'.controller = s.controller ∧
    s'.owner = s.owner ∧
    (∀ j, s'.timestamps j = s.timestamps j) ∧
    (∀ a, a ≠ fromAddr → a ≠ toAddr → s'._balanceOf a = s._balanceOf a) ∧
    (∀ j, j ≠ id → s'._ownerOf j = s._ownerOf j) ∧
    (∀ j, j ≠ id → s'.getApproved j = s.getApproved j) ∧
    (∀ a b, s'.isApprovedForAll a b = s.isApprovedForAll a b) := by
  rw [transferFrom_eq] at h
  split at h
  · exact absurd h (by simp)
  · split at h
    · exact absurd h (by simp)
    · split at h
      · exact absurd h (by simp)
      · obtain rfl : _ = s' := Except.ok.inj h
        refine ⟨rfl, rfl, rfl, rfl, rfl, fun j => rfl, ?_, ?_, ?_, fun a b => rfl⟩
        · intro a haf hat
          simp [Function.update_apply, haf, hat]
        · intro j hj
          simp [Function.update_apply, hj]
        · intro j hj
          simp [Function.update_apply, hj]

/-- C10 witness: the concrete transfer of token 0 from 2 to 3 in `S1`
leaves the counters, timestamp 0, and account 7's balance unchanged. -/
theorem transferFrom_frame_witness :
    transferFrom S1 1 2 3 0 = Except.ok T1 ∧
    T1._supply = S1._supply ∧ T1._idTracker = S1._idTracker ∧
    T1.timestamps 0 = S1.timestamps 0 ∧ T1._balanceOf 7 = S1._balanceOf 7 := by
  have h : transferFrom S1 1 2 3 0 = Except.ok T1 := rfl
  obtain ⟨h1, h2, -, -, -, ht, hb, -, -, -⟩ := transferFrom_frame S1 1 2 3 0 T1 h
  exact ⟨h, h1, h2, ht 0, hb 7 (by decide) (by decide)⟩
